import Mathlib

/-!
Shallow embedding of the astracloud backend: the Mongoose `User` model with its
pre-save bcrypt hook and `comparePassword` method, the JWT issue/verify layer,
the `protect` middleware, and the Express route handlers for signup, login,
profile and ai/chat, together with the startup configuration checks.
-/

namespace AstraCloud

/-- A JSON-like value: the shape of request body fields and response bodies. -/
inductive Json where
  | str (s : String)
  | num (n : Int)
  | jbool (b : Bool)
  | null
  | arr (xs : List Json)
  | obj (fields : List (String × Json))

/-- JavaScript truthiness on JSON values: `""`, `0`, `false` and `null` are
falsy; arrays and objects are always truthy. -/
def Json.falsy : Json → Bool
  | .str s => s = ""
  | .num n => n == 0
  | .jbool b => !b
  | .null => true
  | .arr _ => false
  | .obj _ => false

/-- `typeof v === 'string'`. -/
def Json.isString : Json → Bool
  | .str _ => true
  | _ => false

/-- The top-level keys of a JSON object (empty for non-objects). -/
def Json.topKeys : Json → List String
  | .obj fields => fields.map Prod.fst
  | _ => []

/-- `!field` on an optional JSON field already known to be a string: absent or
empty means JS-falsy, i.e. missing. -/
def presentStr : Option String → Option String
  | none => none
  | some s => if s = "" then none else some s

/-- JS-falsy test on an optional JSON value (an absent field is `undefined`,
hence falsy). -/
def jsFalsyOpt : Option Json → Bool
  | none => true
  | some v => v.falsy

/-- An HTTP response: status code plus JSON body. -/
structure HttpResponse where
  status : Nat
  body : Json

/-- `res.json` (express, via `JSON.stringify`) drops object keys whose value is
`undefined`; an optional field thus contributes either one key or none. -/
def optField (k : String) : Option Json → List (String × Json)
  | none => []
  | some v => [(k, v)]

/-- Modelled from the spec: bcrypt is an external library; per the spec's
Password Hasher contract, `hash` embeds the salt in its output and `verify`
"returns true iff the secret, when hashed with the embedded salt/cost, equals
the stored hash". The digest is modelled as collision-free: it records the
hashed secret together with the salt. -/
structure BcryptHash where
  salt : Nat
  digestOf : String
deriving Repr, DecidableEq

/-- `bcrypt.hash(secret, salt)`. -/
def bcryptHash (salt : Nat) (secret : String) : BcryptHash :=
  ⟨salt, secret⟩

/-- `bcrypt.compare(candidate, stored)`: rehash the candidate with the embedded
salt and compare against the stored hash. -/
def bcryptCompare (candidate : String) (stored : BcryptHash) : Bool :=
  decide (bcryptHash stored.salt candidate = stored)

/-- The password slot of a `User` document: either still-plaintext (before the
pre-save hook has run) or a bcrypt hash. -/
inductive StoredSecret where
  | plain (s : String)
  | hashed (h : BcryptHash)
deriving Repr, DecidableEq

/-- `UserSchema.methods.comparePassword`:
`this.password ? await bcrypt.compare(candidatePassword, this.password) : false`.
When the stored field is absent the method returns false rather than throwing;
`bcrypt.compare` against a stored value that is not a well-formed bcrypt hash
also yields false. -/
def comparePassword (stored : Option StoredSecret) (candidate : String) : Bool :=
  match stored with
  | none => false
  | some (.plain _) => false
  | some (.hashed h) => bcryptCompare candidate h

/-- `UserSchema.pre('save')`: hash the password with a freshly generated salt
when the password path was modified. On document creation the password is a
freshly set plaintext, so it is always hashed; an already-hashed value means
the path was not modified on this save and is left untouched. -/
def preSaveHashPassword (salt : Nat) : StoredSecret → StoredSecret
  | .plain s => .hashed (bcryptHash salt s)
  | .hashed h => .hashed h

/-- Failure kinds of `jwt.verify`. -/
inductive JwtError where
  | malformed
  | signatureInvalid
  | expired
deriving Repr, DecidableEq

/-- The decoded JWT payload: the account id plus the expiry instant (seconds). -/
structure JwtPayload where
  id : String
  exp : Nat
deriving Repr, DecidableEq

/-- Modelled from the spec: jsonwebtoken is an external library. A signed token
is its payload together with the secret it was signed with (the signature
abstraction); verification checks the signature against the current secret and
that the clock has not reached the expiry instant. -/
structure SignedToken where
  payload : JwtPayload
  sigSecret : String
deriving Repr, DecidableEq

/-- `jwt.sign({ id }, secret, { expiresIn })` at clock time `now` (seconds):
the expiry is fixed at issuance. -/
def jwtSign (idv : String) (secret : String) (now : Nat)
    (expiresInSecs : Nat) : SignedToken :=
  ⟨⟨idv, now + expiresInSecs⟩, secret⟩

/-- Token issuance as performed by the signup and login routes:
`expiresIn: '1h'`, i.e. 3600 seconds. -/
def issueToken (idv : String) (secret : String) (now : Nat) : SignedToken :=
  jwtSign idv secret now 3600

/-- `jwt.verify(token, secret)` at clock time `now`: rejects a signature made
with a different secret, then rejects when `now` has reached the expiry
(jsonwebtoken treats a token as expired from the `exp` instant on). -/
def jwtVerify (tok : SignedToken) (secret : String) (now : Nat) :
    Except JwtError JwtPayload :=
  if tok.sigSecret ≠ secret then .error .signatureInvalid
  else if tok.payload.exp ≤ now then .error .expired
  else .ok tok.payload

/-- The compact serialized form of a token as it travels in responses. -/
def encodeToken (t : SignedToken) : String :=
  t.payload.id ++ "." ++ toString t.payload.exp ++ "." ++ t.sigSecret

/-- `interests` entry. -/
structure Interest where
  name : String
  category : String
deriving Repr, DecidableEq

/-- `achievements` entry. -/
structure Achievement where
  title : String
  icon : Option String
  date : Option Nat
deriving Repr, DecidableEq

/-- `academicProgress` entry. -/
structure AcademicProgressItem where
  subject : String
  grade : String
  progress : Option Nat
deriving Repr, DecidableEq

/-- `universityApplications` entry. -/
structure UniversityApplication where
  universityName : String
  program : String
  deadline : Nat
  status : String
deriving Repr, DecidableEq

/-- `applicationProgress` subdocument. -/
structure ApplicationProgress where
  averageCompletion : Nat
  currentProject : Option String
  projectLink : Option String
deriving Repr, DecidableEq

/-- A stored `User` document. `password` has `select: false` in the schema, so
a projection may omit it, hence `Option`. -/
structure Account where
  id : String
  email : String
  password : Option StoredSecret
  firstName : String
  lastName : String
  age : Option Nat
  school : Option String
  grade : Option String
  interests : List Interest
  achievements : List Achievement
  academicProgress : List AcademicProgressItem
  universityApplications : List UniversityApplication
  applicationProgress : ApplicationProgress
deriving Repr, DecidableEq

/-- ASCII lower-casing of one character (`String.prototype.toLowerCase` on the
ASCII range, where email addresses live). -/
def lowerChar (c : Char) : Char :=
  if 'A' ≤ c ∧ c ≤ 'Z' then Char.ofNat (c.toNat + 32) else c

/-- `s.toLowerCase()`. -/
def lowerString (s : String) : String :=
  ⟨s.data.map lowerChar⟩

/-- The whitespace characters stripped by `s.trim()`. -/
def isJsSpace (c : Char) : Bool :=
  c = ' ' ∨ c = '\t' ∨ c = '\n' ∨ c = '\r'

/-- `s.trim()`: strip leading and trailing whitespace. -/
def trimString (s : String) : String :=
  ⟨((s.data.dropWhile isJsSpace).reverse.dropWhile isJsSpace).reverse⟩

/-- Splitting accumulator for `s.split(' ')`. -/
def splitSpaceAux : List Char → List Char → List (List Char)
  | [], acc => [acc.reverse]
  | c :: rest, acc =>
    if c = ' ' then acc.reverse :: splitSpaceAux rest []
    else splitSpaceAux rest (c :: acc)

/-- `s.split(' ')`: split on every single space. -/
def splitOnSpace (s : String) : List String :=
  (splitSpaceAux s.data []).map String.mk

/-- `s.startsWith('Bearer')`. -/
def startsWithBearer (s : String) : Bool :=
  decide (s.data.take 6 = "Bearer".data)

/-- The schema setters on the email path: `lowercase: true, trim: true`. They
run when a document is saved and when a query filter value passes through the
schema (Mongoose applies setters to query filters). -/
def normalizeEmail (e : String) : String :=
  lowerString (trimString e)

/-- `User.findOne({ email })`, with the schema setters applied to the filter
value; stored emails are already normalized by the same setters on save. -/
def findOneByEmail (store : List Account) (e : String) : Option Account :=
  store.find? (fun a => decide (a.email = normalizeEmail e))

/-- `User.findById(id)`. -/
def findById (store : List Account) (idv : String) : Option Account :=
  store.find? (fun a => decide (a.id = idv))

/-- Serialization of an `interests` entry. -/
def interestJson (i : Interest) : Json :=
  .obj [("name", .str i.name), ("category", .str i.category)]

/-- Serialization of an `achievements` entry. -/
def achievementJson (a : Achievement) : Json :=
  .obj ([("title", .str a.title)]
    ++ optField "icon" (a.icon.map .str)
    ++ optField "date" (a.date.map fun d => .num (Int.ofNat d)))

/-- Serialization of an `academicProgress` entry. -/
def academicProgressItemJson (p : AcademicProgressItem) : Json :=
  .obj ([("subject", .str p.subject), ("grade", .str p.grade)]
    ++ optField "progress" (p.progress.map fun n => .num (Int.ofNat n)))

/-- Serialization of a `universityApplications` entry. -/
def universityApplicationJson (u : UniversityApplication) : Json :=
  .obj [("universityName", .str u.universityName), ("program", .str u.program),
        ("deadline", .num (Int.ofNat u.deadline)), ("status", .str u.status)]

/-- Serialization of the `applicationProgress` subdocument. -/
def applicationProgressJson (p : ApplicationProgress) : Json :=
  .obj ([("averageCompletion", .num (Int.ofNat p.averageCompletion))]
    ++ optField "currentProject" (p.currentProject.map .str)
    ++ optField "projectLink" (p.projectLink.map .str))

/-- The `user` object in the 201 signup response (server lines 102-110):
id, email, firstName, lastName, age, school, grade. -/
def signupUserJson (u : Account) : Json :=
  .obj ([("id", .str u.id), ("email", .str u.email),
         ("firstName", .str u.firstName), ("lastName", .str u.lastName)]
    ++ optField "age" (u.age.map fun n => .num (Int.ofNat n))
    ++ optField "school" (u.school.map .str)
    ++ optField "grade" (u.grade.map .str))

/-- The `user` object in the 200 login response (server lines 154-167): the
signup fields plus interests, achievements, academicProgress,
universityApplications and applicationProgress. -/
def loginUserJson (u : Account) : Json :=
  .obj ([("id", .str u.id), ("email", .str u.email),
         ("firstName", .str u.firstName), ("lastName", .str u.lastName)]
    ++ optField "age" (u.age.map fun n => .num (Int.ofNat n))
    ++ optField "school" (u.school.map .str)
    ++ optField "grade" (u.grade.map .str)
    ++ [("interests", .arr (u.interests.map interestJson)),
        ("achievements", .arr (u.achievements.map achievementJson)),
        ("academicProgress", .arr (u.academicProgress.map academicProgressItemJson)),
        ("universityApplications", .arr (u.universityApplications.map universityApplicationJson)),
        ("applicationProgress", applicationProgressJson u.applicationProgress)])

/-- The 200 body of GET /api/user/profile (server lines 186-199): the same
fields as the login user object, at the top level of the response. -/
def profileJson (u : Account) : Json :=
  loginUserJson u

/-- Token extraction in `protect` (server lines 40-44): the header must be
present (JS-truthy) and start with "Bearer"; the token is the second
space-separated word; an out-of-range index (`undefined`) or an empty string
is JS-falsy and counts as no token. -/
def extractToken (authorization : Option String) : Option String :=
  match authorization with
  | none => none
  | some h =>
    if startsWithBearer h then
      match (splitOnSpace h).get? 1 with
      | none => none
      | some t => if t = "" then none else some t
    else none

/-- The `protect` middleware over an abstract verifier (`jwt.verify` with the
process-wide secret, partially applied over the clock): responds 401 when no
token was extracted or when verification fails — the downstream handler `next`
is not consulted — and otherwise attaches the decoded account id to the request
and calls `next` with it. -/
def protect (verify : String → Except JwtError JwtPayload)
    (authorization : Option String) (next : String → HttpResponse) : HttpResponse :=
  match extractToken authorization with
  | none => ⟨401, .obj [("message", .str "No token, authorization denied")]⟩
  | some t =>
    match verify t with
    | .error _ => ⟨401, .obj [("message", .str "Token is not valid")]⟩
    | .ok decoded => next decoded.id

/-- `age ? parseInt(age) : undefined` on the already-parsed age: the falsy
check keeps 0 out (the string-to-number parse itself is elided). -/
def jsAge : Option Nat → Option Nat
  | some a => if a = 0 then none else some a
  | none => none

/-- Matchability of the schema's email validator `/.+@.+\..+/` (unanchored
`RegExp.test`): the string splits as a ++ "@" ++ b ++ "." ++ c with a, b, c
nonempty, i.e. some '@' at index ≥ 1 and some '.' at least two places later
and not at the last index. -/
def emailFormatOk (s : String) : Bool :=
  let n := s.data.length
  (List.range n).any fun i =>
    (List.range n).any fun j =>
      decide (1 ≤ i) && decide (i + 2 ≤ j) && decide (j + 1 < n) &&
      decide (s.data.get? i = some '@') && decide (s.data.get? j = some '.')

/-- The User schema's save-time validators as they apply to a document created
at signup. Mongoose runs validation before the user pre-save hook, so it sees
the plaintext password: required strings non-empty (email, firstName and
lastName after their trim setters), email matching `/.+@.+\..+/`, password of
at least 6 characters, and age within 13..100 when present. -/
def saveValidationOk (email pw firstName lastName : String)
    (age : Option Nat) : Bool :=
  decide (email ≠ "") && emailFormatOk email &&
  decide (6 ≤ pw.data.length) &&
  decide (firstName ≠ "") && decide (lastName ≠ "") &&
  (match age with
   | none => true
   | some a => decide (13 ≤ a) && decide (a ≤ 100))

/-- The body of POST /api/auth/signup. Optional profile scalars are carried
already parsed. -/
structure SignupRequest where
  email : Option String
  password : Option String
  firstName : Option String
  lastName : Option String
  age : Option Nat
  school : Option String
  grade : Option String

/-- POST /api/auth/signup (server lines 66-121). `newId` models the fresh
ObjectId, `salt` the salt drawn by the pre-save hook, `now` the clock used by
`jwt.sign`. Returns the response and the store after the request. Validates the
required fields, rejects a duplicate email found by `findOne`, then saves:
the schema setters normalize the fields; save-time validation runs on the
plaintext and on failure throws ValidationError, caught as the generic 500
(`error.code` is not 11000; the human-readable validator message is
abbreviated); otherwise the pre-save hook hashes the password and a write
colliding with the unique email index raises E11000, answered with 400. -/
def signup (store : List Account) (secret : String) (now : Nat) (newId : String)
    (salt : Nat) (r : SignupRequest) : HttpResponse × List Account :=
  match presentStr r.email, presentStr r.password,
        presentStr r.firstName, presentStr r.lastName with
  | some email, some password, some firstName, some lastName =>
    match findOneByEmail store email with
    | some _ =>
      (⟨400, .obj [("message", .str "User with this email already exists")]⟩, store)
    | none =>
      let doc : Account := {
        id := newId
        email := normalizeEmail email
        password := some (preSaveHashPassword salt (.plain password))
        firstName := trimString firstName
        lastName := trimString lastName
        age := jsAge r.age
        school := r.school.map trimString
        grade := r.grade.map trimString
        interests := []
        achievements := []
        academicProgress := []
        universityApplications := []
        applicationProgress := ⟨0, none, none⟩ }
      if !saveValidationOk doc.email password doc.firstName doc.lastName doc.age then
        (⟨500, .obj [("message", .str "Server error during signup"),
                     ("error", .str "ValidationError")]⟩, store)
      else if (store.find? (fun a => decide (a.email = doc.email))).isSome then
        (⟨400, .obj [("message", .str "Email already registered")]⟩, store)
      else
        (⟨201, .obj [("message", .str "User registered successfully"),
                     ("token", .str (encodeToken (issueToken newId secret now))),
                     ("user", signupUserJson doc)]⟩,
         store ++ [doc])
  | _, _, _, _ =>
    (⟨400, .obj [("message", .str "Please enter all required fields")]⟩, store)

/-- The body of POST /api/auth/login. -/
structure LoginRequest where
  email : Option String
  password : Option String

/-- POST /api/auth/login (server lines 126-174). The lookup is
`findOne({ email }).select('+password')`, so the document carries its stored
hash into `comparePassword`. -/
def login (store : List Account) (secret : String) (now : Nat)
    (r : LoginRequest) : HttpResponse :=
  match presentStr r.email, presentStr r.password with
  | some email, some password =>
    match findOneByEmail store email with
    | none => ⟨400, .obj [("message", .str "Invalid credentials")]⟩
    | some u =>
      if comparePassword u.password password then
        ⟨200, .obj [("message", .str "Logged in successfully"),
                    ("token", .str (encodeToken (issueToken u.id secret now))),
                    ("user", loginUserJson u)]⟩
      else ⟨400, .obj [("message", .str "Invalid credentials")]⟩
  | _, _ => ⟨400, .obj [("message", .str "Please enter all fields")]⟩

/-- The handler part of GET /api/user/profile (server lines 180-199). -/
def profileHandler (store : List Account) (idv : String) : HttpResponse :=
  match findById store idv with
  | none => ⟨404, .obj [("message", .str "User not found")]⟩
  | some u => ⟨200, profileJson u⟩

/-- GET /api/user/profile: the `protect` middleware composed with the handler. -/
def profileRoute (verify : String → Except JwtError JwtPayload)
    (store : List Account) (authorization : Option String) : HttpResponse :=
  protect verify authorization (profileHandler store)

/-- POST /api/ai/chat after `protect` (server lines 231-259): the `!message`
falsy gate answers MISSING_MESSAGE, then the `typeof` gate answers
INVALID_MESSAGE_FORMAT, and only a surviving string reaches `getAIResponse`.
The returned Bool records whether the upstream inference call was made. -/
def aiChat (message : Option Json) (getAIResponse : String → String) :
    HttpResponse × Bool :=
  if jsFalsyOpt message then
    (⟨400, .obj [("message", .str "Message is required"),
                 ("error", .str "MISSING_MESSAGE")]⟩, false)
  else
    match message with
    | some (.str s) =>
      (⟨200, .obj [("response", .str (getAIResponse s))]⟩, true)
    | _ =>
      (⟨400, .obj [("message", .str "Message must be a string"),
                   ("error", .str "INVALID_MESSAGE_FORMAT")]⟩, false)

/-- The environment variables consulted at startup. -/
structure StartupEnv where
  jwtSecret : Option String
  mongoURI : Option String

/-- The configuration the server runs with once startup succeeds. -/
structure ServerConfig where
  jwtSecret : String
  mongoURI : String
deriving Repr, DecidableEq

/-- Outcome of the startup checks. -/
inductive StartupResult where
  | fatalExit
  | started (cfg : ServerConfig)
deriving Repr, DecidableEq

/-- The startup configuration checks (server lines 14 and 21-25). Both are JS
falsy checks on environment strings: `if (!mongoURI)` makes an absent or empty
`MONGO_URI` fatal (`process.exit(1)`), while
`process.env.JWT_SECRET || 'supersecretjwtkey'` makes an absent or empty
`JWT_SECRET` fall back to the hardcoded default. -/
def startup (env : StartupEnv) : StartupResult :=
  match presentStr env.mongoURI with
  | none => .fatalExit
  | some uri =>
    .started ⟨(presentStr env.jwtSecret).getD "supersecretjwtkey", uri⟩

/-- A concrete stored account, used to instantiate the theorems below. -/
def wAccount : Account :=
  { id := "u2", email := "b@x.com",
    password := some (.hashed (bcryptHash 7 "rightpw")),
    firstName := "Bea", lastName := "Bee", age := none, school := none,
    grade := none, interests := [], achievements := [], academicProgress := [],
    universityApplications := [], applicationProgress := ⟨0, none, none⟩ }

/-- A concrete verifier (a `jwt.verify` instance), used to instantiate the
middleware theorems below. -/
def wVerify : String → Except JwtError JwtPayload :=
  fun t => if t = "good" then .ok ⟨"u2", 99⟩ else .error .malformed

/-- A concrete downstream handler. -/
def wNext : String → HttpResponse :=
  fun idv => ⟨200, .str idv⟩

/-- A second, observably different downstream handler. -/
def wNextAlt : String → HttpResponse :=
  fun _ => ⟨500, .null⟩

/-- C1: for every login request with both email and password present, the
failure response when no account exists for the email and the failure response
when an account exists but the password does not verify are the identical
400 "Invalid credentials" response, so a caller cannot distinguish account
existence from a wrong password. -/
theorem login_failure_indistinguishable
    (store store' : List Account) (secret secret' : String) (now now' : Nat)
    (r r' : LoginRequest) (e pw e' pw' : String) (u : Account)
    (he : presentStr r.email = some e) (hp : presentStr r.password = some pw)
    (he' : presentStr r'.email = some e') (hp' : presentStr r'.password = some pw')
    (hnone : findOneByEmail store e = none)
    (hu : findOneByEmail store' e' = some u)
    (hmatch : comparePassword u.password pw' = false) :
    login store secret now r = login store' secret' now' r' ∧
    login store secret now r =
      ⟨400, Json.obj [("message", Json.str "Invalid credentials")]⟩ := by
  simp only [login, he, hp, he', hp', hnone, hu, hmatch]
  exact ⟨rfl, trivial⟩

/-- C1 witness: a login with an unknown email against an empty store and a
login with a wrong password for a stored account produce identical responses. -/
theorem login_failure_indistinguishable_witness :
    login [] "s" 0 ⟨some "a@x.com", some "pw"⟩ =
      login [wAccount] "s2" 5 ⟨some "b@x.com", some "wrongpw"⟩ ∧
    login [] "s" 0 ⟨some "a@x.com", some "pw"⟩ =
      ⟨400, Json.obj [("message", Json.str "Invalid credentials")]⟩ :=
  login_failure_indistinguishable [] [wAccount] "s" "s2" 0 5
    ⟨some "a@x.com", some "pw"⟩ ⟨some "b@x.com", some "wrongpw"⟩
    "a@x.com" "pw" "b@x.com" "wrongpw" wAccount
    rfl rfl rfl rfl rfl rfl rfl

/-- C2: the user object in the signup, login and profile success responses
never contains the password field, regardless of call site. -/
theorem response_views_exclude_password (u : Account) :
    ((signupUserJson u).topKeys.contains "password") = false ∧
    ((loginUserJson u).topKeys.contains "password") = false ∧
    ((profileJson u).topKeys.contains "password") = false := by
  rcases u with ⟨i, e, p, f, l, age, school, grade, ints, ach, acad, apps, ap⟩
  cases age <;> cases school <;> cases grade <;> exact ⟨rfl, rfl, rfl⟩

/-- C3: verification accepts the password the hash was built from, rejects
every other password, and returns false (rather than throwing) when no stored
hash is present. -/
theorem verify_hash_contract (p q : String) (salt : Nat) (hpq : q ≠ p) :
    comparePassword (some (.hashed (bcryptHash salt p))) p = true ∧
    comparePassword (some (.hashed (bcryptHash salt p))) q = false ∧
    comparePassword none q = false := by
  refine ⟨?_, ?_, rfl⟩
  · simp [comparePassword, bcryptCompare, bcryptHash]
  · simp [comparePassword, bcryptCompare, bcryptHash, BcryptHash.mk.injEq, hpq]

/-- C3 witness. -/
theorem verify_hash_contract_witness :
    comparePassword (some (.hashed (bcryptHash 3 "pw"))) "pw" = true ∧
    comparePassword (some (.hashed (bcryptHash 3 "pw"))) "other" = false ∧
    comparePassword none "other" = false :=
  verify_hash_contract "pw" "other" 3 (by decide)

/-- C4: the protect middleware responds 401 — never consulting the downstream
handler — when the bearer token is absent or fails verification, and attaches
the resolved account id and calls the next stage when verification succeeds. -/
theorem protect_access_control
    (verify : String → Except JwtError JwtPayload) (auth : Option String)
    (next nextAlt : String → HttpResponse) :
    (extractToken auth = none →
      protect verify auth next =
        ⟨401, Json.obj [("message", Json.str "No token, authorization denied")]⟩ ∧
      protect verify auth next = protect verify auth nextAlt) ∧
    (∀ t e, extractToken auth = some t → verify t = .error e →
      protect verify auth next =
        ⟨401, Json.obj [("message", Json.str "Token is not valid")]⟩ ∧
      protect verify auth next = protect verify auth nextAlt) ∧
    (∀ t p, extractToken auth = some t → verify t = .ok p →
      protect verify auth next = next p.id) := by
  refine ⟨fun h => ?_, fun t e ht hv => ?_, fun t p ht hv => ?_⟩ <;>
    simp [protect, *]

/-- C4 witness: no header, an invalid token and a valid token, against a
concrete verifier and two observably different downstream handlers. -/
theorem protect_access_control_witness :
    protect wVerify none wNext =
      ⟨401, Json.obj [("message", Json.str "No token, authorization denied")]⟩ ∧
    protect wVerify (some "Bearer bad") wNext =
      ⟨401, Json.obj [("message", Json.str "Token is not valid")]⟩ ∧
    protect wVerify (some "Bearer good") wNext = wNext "u2" :=
  ⟨((protect_access_control wVerify none wNext wNextAlt).1 rfl).1,
   ((protect_access_control wVerify (some "Bearer bad") wNext wNextAlt).2.1
      "bad" .malformed rfl rfl).1,
   (protect_access_control wVerify (some "Bearer good") wNext wNextAlt).2.2
      "good" ⟨"u2", 99⟩ rfl rfl⟩

/-- C5: every token is issued with a one-hour expiry fixed at issuance; a token
issued at time T verifies at T + 59 minutes and is rejected as expired at
T + 61 minutes. -/
theorem token_one_hour_expiry (idv secret : String) (T : Nat) :
    (issueToken idv secret T).payload.exp = T + 3600 ∧
    jwtVerify (issueToken idv secret T) secret (T + 59 * 60) =
      .ok ⟨idv, T + 3600⟩ ∧
    jwtVerify (issueToken idv secret T) secret (T + 61 * 60) =
      .error .expired := by
  refine ⟨rfl, ?_, ?_⟩
  · have h : ¬ (T + 3600 ≤ T + 59 * 60) := by omega
    simp [jwtVerify, issueToken, jwtSign, h]
  · have h : T + 3600 ≤ T + 61 * 60 := by omega
    simp [jwtVerify, issueToken, jwtSign, h]

/-- C6: a signup whose email already belongs to a stored account after the
case-insensitive normalization fails with the duplicate-email error — not a
generic one — and leaves the store unchanged. -/
theorem signup_duplicate_email_conflict
    (store : List Account) (secret : String) (now : Nat) (newId : String)
    (salt : Nat) (r : SignupRequest) (e pw f l : String) (a : Account)
    (he : presentStr r.email = some e) (hp : presentStr r.password = some pw)
    (hf : presentStr r.firstName = some f) (hl : presentStr r.lastName = some l)
    (hmem : a ∈ store) (hcase : a.email = normalizeEmail e) :
    signup store secret now newId salt r =
      (⟨400, Json.obj [("message", Json.str "User with this email already exists")]⟩,
       store) := by
  obtain ⟨u, hu⟩ : ∃ u, findOneByEmail store e = some u := by
    have hs : (findOneByEmail store e).isSome := by
      unfold findOneByEmail
      rw [List.find?_isSome]
      exact ⟨a, hmem, by simp [hcase]⟩
    exact Option.isSome_iff_exists.mp hs
  simp only [signup, he, hp, hf, hl, hu]

/-- C6 witness: the store holds "b@x.com" and the request carries " B@X.com ",
differing in case and padding. -/
theorem signup_duplicate_email_conflict_witness :
    signup [wAccount] "s" 0 "u9" 3
      ⟨some " B@X.com ", some "pw", some "Ann", some "Lee", none, none, none⟩ =
      (⟨400, Json.obj [("message", Json.str "User with this email already exists")]⟩,
       [wAccount]) :=
  signup_duplicate_email_conflict [wAccount] "s" 0 "u9" 3
    ⟨some " B@X.com ", some "pw", some "Ann", some "Lee", none, none, none⟩
    " B@X.com " "pw" "Ann" "Lee" wAccount
    rfl rfl rfl rfl (List.mem_cons_self wAccount []) rfl

/-- C7 counterexample: with the store connection string supplied but the
signing secret absent, startup does not fail — the process continues with a
hardcoded fallback secret. -/
theorem startup_missing_secret_not_fatal :
    startup ⟨none, some "mongodb://localhost/astra"⟩ =
      .started ⟨"supersecretjwtkey", "mongodb://localhost/astra"⟩ := rfl

/-- C7 amended: an absent or empty (JS-falsy) store connection string is a
fatal startup error, while an absent or empty signing secret is not — startup
then proceeds with the hardcoded fallback secret "supersecretjwtkey". -/
theorem startup_config_behavior (env : StartupEnv) :
    (presentStr env.mongoURI = none → startup env = .fatalExit) ∧
    (∀ uri, presentStr env.mongoURI = some uri →
      startup env =
        .started ⟨(presentStr env.jwtSecret).getD "supersecretjwtkey", uri⟩) := by
  refine ⟨fun h => ?_, fun uri h => ?_⟩ <;> simp [startup, h]

/-- C7 amended witness: a missing and an empty connection string are fatal; an
empty signing secret is replaced by the fallback. -/
theorem startup_config_behavior_witness :
    startup ⟨some "k", none⟩ = .fatalExit ∧
    startup ⟨some "k", some ""⟩ = .fatalExit ∧
    startup ⟨some "", some "mongodb://m"⟩ =
      .started ⟨"supersecretjwtkey", "mongodb://m"⟩ :=
  ⟨(startup_config_behavior ⟨some "k", none⟩).1 rfl,
   (startup_config_behavior ⟨some "k", some ""⟩).1 rfl,
   (startup_config_behavior ⟨some "", some "mongodb://m"⟩).2 "mongodb://m" rfl⟩

/-- C9: on GET /user/profile, a missing or invalid bearer token yields 401; a
verified token whose account id has no backing record yields 404; a verified
token with a backing record yields 200 with the full profile. -/
theorem profile_route_statuses
    (verify : String → Except JwtError JwtPayload) (store : List Account)
    (auth : Option String) :
    (extractToken auth = none →
      profileRoute verify store auth =
        ⟨401, Json.obj [("message", Json.str "No token, authorization denied")]⟩) ∧
    (∀ t eK, extractToken auth = some t → verify t = .error eK →
      profileRoute verify store auth =
        ⟨401, Json.obj [("message", Json.str "Token is not valid")]⟩) ∧
    (∀ t p, extractToken auth = some t → verify t = .ok p →
      findById store p.id = none →
      profileRoute verify store auth =
        ⟨404, Json.obj [("message", Json.str "User not found")]⟩) ∧
    (∀ t p u, extractToken auth = some t → verify t = .ok p →
      findById store p.id = some u →
      profileRoute verify store auth = ⟨200, profileJson u⟩) := by
  refine ⟨fun h => ?_, fun t eK ht hv => ?_, fun t p ht hv hn => ?_,
          fun t p u ht hv hu => ?_⟩ <;>
    simp [profileRoute, protect, profileHandler, *]

/-- C9 witness: the four cases at concrete inputs. -/
theorem profile_route_statuses_witness :
    profileRoute wVerify [wAccount] none =
      ⟨401, Json.obj [("message", Json.str "No token, authorization denied")]⟩ ∧
    profileRoute wVerify [wAccount] (some "Bearer bad") =
      ⟨401, Json.obj [("message", Json.str "Token is not valid")]⟩ ∧
    profileRoute wVerify [] (some "Bearer good") =
      ⟨404, Json.obj [("message", Json.str "User not found")]⟩ ∧
    profileRoute wVerify [wAccount] (some "Bearer good") =
      ⟨200, profileJson wAccount⟩ :=
  ⟨(profile_route_statuses wVerify [wAccount] none).1 rfl,
   (profile_route_statuses wVerify [wAccount] (some "Bearer bad")).2.1
      "bad" .malformed rfl rfl,
   (profile_route_statuses wVerify [] (some "Bearer good")).2.2.1
      "good" ⟨"u2", 99⟩ rfl rfl rfl,
   (profile_route_statuses wVerify [wAccount] (some "Bearer good")).2.2.2
      "good" ⟨"u2", 99⟩ wAccount rfl rfl rfl⟩

/-- C10 counterexample: the message 0 is present and is not a string, yet the
route answers MISSING_MESSAGE — not INVALID_MESSAGE_FORMAT — because the
emptiness check is a falsy check and 0 is falsy. -/
theorem aiChat_falsy_nonstring_counterexample :
    (aiChat (some (Json.num 0)) (fun s => s)).1 =
      ⟨400, Json.obj [("message", Json.str "Message is required"),
                      ("error", Json.str "MISSING_MESSAGE")]⟩ ∧
    (aiChat (some (Json.num 0)) (fun s => s)).1 ≠
      ⟨400, Json.obj [("message", Json.str "Message must be a string"),
                      ("error", Json.str "INVALID_MESSAGE_FORMAT")]⟩ := by
  refine ⟨rfl, fun h => ?_⟩
  have hb : Json.str "MISSING_MESSAGE" = Json.str "INVALID_MESSAGE_FORMAT" :=
    congrArg (fun resp =>
      match resp.body with
      | Json.obj (_ :: (_, v) :: _) => v
      | _ => Json.null) h
  exact absurd (Json.str.inj hb) (by decide)

/-- C10 amended: an absent or JS-falsy message (including "", 0, false and
null) is rejected with 400 MISSING_MESSAGE; a present, truthy, non-string
message is rejected with 400 INVALID_MESSAGE_FORMAT; in both cases the
upstream inference service is never called. -/
theorem aiChat_validation (message : Option Json) (f : String → String) :
    (jsFalsyOpt message = true →
      aiChat message f =
        (⟨400, Json.obj [("message", Json.str "Message is required"),
                         ("error", Json.str "MISSING_MESSAGE")]⟩, false)) ∧
    (∀ m, message = some m → m.falsy = false → m.isString = false →
      aiChat message f =
        (⟨400, Json.obj [("message", Json.str "Message must be a string"),
                         ("error", Json.str "INVALID_MESSAGE_FORMAT")]⟩, false)) ∧
    ((jsFalsyOpt message = true ∨ (∃ m, message = some m ∧ m.isString = false)) →
      (aiChat message f).2 = false) := by
  refine ⟨fun h => by simp [aiChat, h], fun m hm hf hs => ?_, fun h => ?_⟩
  · subst hm
    cases m <;> simp_all [aiChat, jsFalsyOpt, Json.falsy, Json.isString]
  · rcases h with h | ⟨m, hm, hs⟩
    · simp [aiChat, h]
    · subst hm
      by_cases hf : m.falsy
      · simp [aiChat, jsFalsyOpt, hf]
      · cases m <;> simp_all [aiChat, jsFalsyOpt, Json.falsy, Json.isString]

/-- C10 amended witness: a falsy message, a truthy non-string message, and an
absent message. -/
theorem aiChat_validation_witness :
    aiChat (some (Json.num 0)) (fun s => s) =
      (⟨400, Json.obj [("message", Json.str "Message is required"),
                       ("error", Json.str "MISSING_MESSAGE")]⟩, false) ∧
    aiChat (some (Json.num 5)) (fun s => s) =
      (⟨400, Json.obj [("message", Json.str "Message must be a string"),
                       ("error", Json.str "INVALID_MESSAGE_FORMAT")]⟩, false) ∧
    (aiChat none (fun s => s)).2 = false :=
  ⟨(aiChat_validation (some (Json.num 0)) (fun s => s)).1 rfl,
   (aiChat_validation (some (Json.num 5)) (fun s => s)).2.1 (Json.num 5) rfl rfl rfl,
   (aiChat_validation none (fun s => s)).2.2 (Or.inl rfl)⟩

end AstraCloud
